import Mathlib

/-!
Verification development for the Freedify audio pipeline
(`src/app/audio_service.py`, `src/app/main.py`).

The Python code is shallowly embedded: every network call is replaced by an
oracle function from the request data to an abstract HTTP response, every
fallible step returns `Option`/`Except`, and the mutable fields of the
`AudioService` singleton (`tidal_token`, `working_api`) are threaded as an
explicit `ServiceState`.  The on-disk cache (module `app.cache`, which is not
part of the sources) is modelled from the spec as an association list keyed by
(identity, format).
-/

namespace Freedify

/-- JSON values, as produced by `response.json()` in the Python code. -/
inductive Json where
  | null
  | bool (b : Bool)
  | num (n : Int)
  | str (s : String)
  | arr (items : List Json)
  | obj (fields : List (String × Json))

/-- Field lookup in a JSON object literal, first match wins
(Python `dict` lookup; our object literals never repeat keys). -/
def lookupField : List (String × Json) → String → Option Json
  | [], _ => none
  | (k, v) :: rest, key => if k = key then some v else lookupField rest key

/-- Python truthiness (`if x:`) of a JSON value. -/
def jsonTruthy : Json → Bool
  | .null => false
  | .bool b => b
  | .num n => n != 0
  | .str s => s != ""
  | .arr items => !items.isEmpty
  | .obj fields => !fields.isEmpty

/-- Whether `pat` occurs as a contiguous sublist of `hay`. -/
def hasSubstring : List Char → List Char → Bool
  | [], pat => pat.isEmpty
  | c :: rest, pat => pat.isPrefixOf (c :: rest) || hasSubstring rest pat

/-- Models `sub in s` for Python strings. -/
def containsSubstr (s sub : String) : Bool :=
  hasSubstring s.data sub.data

/-- ASCII lower-casing of one character (Python `str.lower()`; the strings
this model lower-cases are ASCII content types). -/
def charToLower (c : Char) : Char :=
  if 65 ≤ c.toNat ∧ c.toNat ≤ 90 then Char.ofNat (c.toNat + 32) else c

/-- ASCII `s.lower()`. -/
def stringToLower (s : String) : String :=
  ⟨s.data.map charToLower⟩

/-- The mutable fields of the `AudioService` singleton that the embedded
functions read and write (`self.tidal_token`, `self.working_api`). -/
structure ServiceState where
  tidal_token : Option String
  working_api : Option String
deriving DecidableEq

/-- Outcome of the `client.get(full_url)` call inside
`get_tidal_download_url_from_api`: `timed_out` models
`httpx.TimeoutException`, `errored` any other raised exception, and
`json = none` a body on which `response.json()` raises. -/
structure ApiResponse where
  timed_out : Bool
  errored : Bool
  status_code : Nat
  content_type : String
  json : Option Json

/-- The hard-coded endpoint list `TIDAL_APIS` from `audio_service.py`. -/
def TIDAL_APIS : List String :=
  [ "https://tidal.kinoplus.online",
    "https://tidal-api.binimum.org",
    "https://wolf.qqdl.site",
    "https://maus.qqdl.site",
    "https://vogel.qqdl.site",
    "https://katze.qqdl.site",
    "https://hund.qqdl.site" ]

/-- Models `f"{api_url}/track/?id={track_id}&quality={quality}"`. -/
def trackRequestUrl (api_url : String) (track_id : Int) (quality : String) : String :=
  api_url ++ "/track/?id=" ++ toString track_id ++ "&quality=" ++ quality

/-- Models `"html" in content_type.lower()`. -/
def htmlContentType (content_type : String) : Bool :=
  containsSubstr (stringToLower content_type) "html"

/-- The API v2.0 manifest branch of `get_tidal_download_url_from_api`
(lines 136-152).  `decode` models `base64.b64decode` followed by
`json.loads`, returning `none` when either raises.  `.ok none` means the
branch fell through without returning, `.error ()` an exception escaping to
the outermost handler (`inner_data.get(...)` on a non-dict), and
`.ok (some u)` a returned URL.  Non-string URL payloads (which the Python
code would pass through and crash on later) are not modelled. -/
def v2ManifestUrl (decode : String → Option Json) (data : Json) :
    Except Unit (Option String) :=
  match data with
  | .obj fields =>
    match lookupField fields "version", lookupField fields "data" with
    | some _, some inner =>
      match inner with
      | .obj innerFields =>
        match lookupField innerFields "manifest" with
        | some manifest_b64 =>
          if jsonTruthy manifest_b64 then
            match manifest_b64 with
            | .str b64 =>
              match decode b64 with
              | some (.obj manifestFields) =>
                match (lookupField manifestFields "urls").getD (.arr []) with
                | .arr (first :: _) =>
                  match first with
                  | .str u => .ok (some u)
                  | _ => .ok none
                | _ => .ok none
              | _ => .ok none
            | _ => .ok none
          else .ok none
        | none => .ok none
      | _ => .error ()
    | _, _ => .ok none
  | _ => .ok none

/-- The legacy-format scan over a JSON list (lines 155-160): the first dict
item carrying `"OriginalTrackUrl"` wins.  Non-dict items are skipped by the
`isinstance` guard. -/
def legacyListUrl : List Json → Option String
  | [] => none
  | item :: rest =>
    match item with
    | .obj fields =>
      match lookupField fields "OriginalTrackUrl" with
      | some (.str u) => some u
      | some _ => none
      | none => legacyListUrl rest
    | _ => legacyListUrl rest

/-- The legacy / flat-dict branches of `get_tidal_download_url_from_api`
(lines 154-169). -/
def legacyUrl : Json → Option String
  | .arr items => legacyListUrl items
  | .obj fields =>
    match lookupField fields "OriginalTrackUrl" with
    | some (.str u) => some u
    | some _ => none
    | none =>
      match lookupField fields "url" with
      | some (.str u) => some u
      | _ => none
  | _ => none

/-- The pure part of `AudioService.get_tidal_download_url_from_api`: maps the
response of one endpoint to the extracted download URL, `none` on any of the
soft-failure paths (non-200 status, HTML content type, unparsable body,
unexpected format) and on any caught exception. -/
def urlFromApiResponse (decode : String → Option Json) (resp : ApiResponse) :
    Option String :=
  if resp.timed_out || resp.errored then none
  else if resp.status_code != 200 then none
  else if htmlContentType resp.content_type then none
  else
    match resp.json with
    | none => none
    | some data =>
      match v2ManifestUrl decode data with
      | .error _ => none
      | .ok (some u) => some u
      | .ok none => legacyUrl data

/-- Models `AudioService.get_tidal_download_url_from_api` with its state effect: in
the source, `self.working_api = api_url` is executed immediately before each
successful `return`, and never on a failing path. -/
def get_tidal_download_url_from_api (decode : String → Option Json)
    (resp : ApiResponse) (api_url : String) (s : ServiceState) :
    Option String × ServiceState :=
  match urlFromApiResponse decode resp with
  | some url => (some url, { s with working_api := some api_url })
  | none => (none, s)

/-- The try-order built at the top of `AudioService.get_tidal_download_url`:
`apis_to_try = list(TIDAL_APIS)`, then the last working API (if truthy and
present) is moved to the front. -/
def apisToTry (s : ServiceState) : List String :=
  match s.working_api with
  | some w =>
    if w != "" && TIDAL_APIS.contains w then w :: TIDAL_APIS.erase w
    else TIDAL_APIS
  | none => TIDAL_APIS

/-- The `for api_url in apis_to_try` loop of
`AudioService.get_tidal_download_url`: first endpoint yielding a URL wins.
`responses` is the network oracle, keyed by the full request URL. -/
def tryApisFrom (decode : String → Option Json) (responses : String → ApiResponse)
    (track_id : Int) (quality : String) :
    List String → ServiceState → Option String × ServiceState
  | [], s => (none, s)
  | api_url :: rest, s =>
    match get_tidal_download_url_from_api decode
        (responses (trackRequestUrl api_url track_id quality)) api_url s with
    | (some url, s1) => (some url, s1)
    | (none, s1) => tryApisFrom decode responses track_id quality rest s1

/-- Models `AudioService.get_tidal_download_url`. -/
def get_tidal_download_url (decode : String → Option Json)
    (responses : String → ApiResponse) (track_id : Int) (quality : String)
    (s : ServiceState) : Option String × ServiceState :=
  tryApisFrom decode responses track_id quality (apisToTry s) s

/-- A soft failure of one endpoint, as enumerated by the spec: non-success
status, HTML content type, or a body that does not parse as JSON. -/
def SoftFailure (resp : ApiResponse) : Prop :=
  resp.status_code ≠ 200 ∨ htmlContentType resp.content_type = true ∨
    resp.json.isNone = true

instance (resp : ApiResponse) : Decidable (SoftFailure resp) := by
  unfold SoftFailure; infer_instance

theorem urlFromApiResponse_of_softFailure (decode : String → Option Json)
    (resp : ApiResponse) (h : SoftFailure resp) :
    urlFromApiResponse decode resp = none := by
  rcases h with h | h | h
  · simp [urlFromApiResponse, h]
  · simp [urlFromApiResponse, h]
  · simp [urlFromApiResponse, Option.isNone_iff_eq_none.mp h]

theorem tryApisFrom_append_none (decode : String → Option Json)
    (responses : String → ApiResponse) (track_id : Int) (quality : String)
    (front l : List String) (s : ServiceState)
    (h : ∀ a ∈ front,
      urlFromApiResponse decode (responses (trackRequestUrl a track_id quality)) = none) :
    tryApisFrom decode responses track_id quality (front ++ l) s =
      tryApisFrom decode responses track_id quality l s := by
  induction front with
  | nil => rfl
  | cons a front ih =>
    have ha := h a (List.mem_cons_self a front)
    simp only [List.cons_append, tryApisFrom, get_tidal_download_url_from_api, ha]
    exact ih (fun b hb => h b (List.mem_cons_of_mem a hb))

theorem apisToTry_subset (s : ServiceState) : ∀ a ∈ apisToTry s, a ∈ TIDAL_APIS := by
  intro a ha
  cases hw : s.working_api with
  | none => simpa [apisToTry, hw] using ha
  | some w =>
    simp only [apisToTry, hw] at ha
    by_cases hc : (w != "" && TIDAL_APIS.contains w) = true
    · rw [if_pos hc] at ha
      rcases List.mem_cons.mp ha with rfl | h
      · exact List.mem_of_elem_eq_true ((Bool.and_eq_true _ _).mp hc).2
      · exact List.mem_of_mem_erase h
    · rw [if_neg hc] at ha; exact ha

/-- C1: if, in the try order `apisToTry s`, every endpoint before `apiN`
yields a soft failure (non-success status, HTML content type, or unparsable
body) and `apiN`'s response yields the URL `url`, then
`get_tidal_download_url` succeeds with `url`, records `apiN` as the
last-known-good endpoint (`working_api`), and the next resolution's try order
is `apiN` followed by the remaining `TIDAL_APIS` in their fixed priority
order. -/
theorem c1_endpoint_fallback (decode : String → Option Json)
    (responses : String → ApiResponse) (track_id : Int) (quality : String)
    (s : ServiceState) (front rest : List String) (apiN url : String)
    (horder : apisToTry s = front ++ apiN :: rest)
    (hfail : ∀ a ∈ front, SoftFailure (responses (trackRequestUrl a track_id quality)))
    (hsucc :
      urlFromApiResponse decode (responses (trackRequestUrl apiN track_id quality)) =
        some url) :
    get_tidal_download_url decode responses track_id quality s =
      (some url, { s with working_api := some apiN }) ∧
    apisToTry { s with working_api := some apiN } =
      apiN :: TIDAL_APIS.erase apiN := by
  have hnone : ∀ a ∈ front,
      urlFromApiResponse decode (responses (trackRequestUrl a track_id quality)) = none :=
    fun a ha => urlFromApiResponse_of_softFailure decode _ (hfail a ha)
  have h1 : get_tidal_download_url decode responses track_id quality s =
      (some url, { s with working_api := some apiN }) := by
    unfold get_tidal_download_url
    rw [horder, tryApisFrom_append_none decode responses track_id quality front _ s hnone]
    simp only [tryApisFrom, get_tidal_download_url_from_api, hsucc]
  have hmem : apiN ∈ TIDAL_APIS := by
    have hmem0 : apiN ∈ apisToTry s := by
      rw [horder]; exact List.mem_append_right _ (List.mem_cons_self _ _)
    exact apisToTry_subset s apiN hmem0
  refine ⟨h1, ?_⟩
  simp only [TIDAL_APIS, List.mem_cons, List.not_mem_nil, or_false] at hmem
  rcases hmem with rfl | rfl | rfl | rfl | rfl | rfl | rfl <;> rfl

/-- Concrete environment for the C1 witness: every endpoint answers with an
HTML 503 page, except `tidal-api.binimum.org`, which answers a flat JSON
record carrying a `url` field. -/
def c1Responses : String → ApiResponse := fun u =>
  if u = trackRequestUrl "https://tidal-api.binimum.org" 42 "LOSSLESS" then
    { timed_out := false, errored := false, status_code := 200,
      content_type := "application/json",
      json := some (.obj [("url", .str "https://cdn.example/track.flac")]) }
  else
    { timed_out := false, errored := false, status_code := 503,
      content_type := "text/html", json := none }

def c1Decode : String → Option Json := fun _ => none

theorem c1_endpoint_fallback_witness :
    SoftFailure (c1Responses (trackRequestUrl "https://tidal.kinoplus.online" 42 "LOSSLESS")) ∧
    get_tidal_download_url c1Decode c1Responses 42 "LOSSLESS"
        { tidal_token := none, working_api := none } =
      (some "https://cdn.example/track.flac",
        { tidal_token := none, working_api := some "https://tidal-api.binimum.org" }) ∧
    apisToTry { tidal_token := none, working_api := some "https://tidal-api.binimum.org" } =
      "https://tidal-api.binimum.org" ::
        TIDAL_APIS.erase "https://tidal-api.binimum.org" := by
  have h := c1_endpoint_fallback c1Decode c1Responses 42 "LOSSLESS"
    { tidal_token := none, working_api := none }
    ["https://tidal.kinoplus.online"]
    ["https://wolf.qqdl.site", "https://maus.qqdl.site", "https://vogel.qqdl.site",
     "https://katze.qqdl.site", "https://hund.qqdl.site"]
    "https://tidal-api.binimum.org" "https://cdn.example/track.flac"
    rfl (by decide) (by decide)
  exact ⟨by decide, h.1, h.2⟩

/-! Part: Credential manager and catalog search
(`AudioService.get_tidal_token`, `AudioService.search_tidal_by_isrc`) -/

/-- Outcome of an HTTP request whose body is consumed via `response.json()`
(`errored` models a raised network exception, `json = none` a body on which
`response.json()` raises). -/
structure HttpJsonResponse where
  errored : Bool
  status_code : Nat
  json : Option Json

/-- Models `response.is_success` as used by httpx's `raise_for_status`:
2xx status codes. -/
def httpSuccess (code : Nat) : Bool :=
  200 ≤ code && code < 300

/-- The fetch branch of `AudioService.get_tidal_token` (the POST to
`auth.tidal.com` followed by `raise_for_status` and
`response.json()["access_token"]`).  `.error ()` models a raised exception.
Non-string `access_token` payloads are not modelled. -/
def fetchTidalToken (auth : HttpJsonResponse) (s : ServiceState) :
    Except Unit (String × ServiceState) :=
  if auth.errored then .error ()
  else if !httpSuccess auth.status_code then .error ()
  else
    match auth.json with
    | some data =>
      match data with
      | .obj fields =>
        match lookupField fields "access_token" with
        | some (.str t) => .ok (t, { s with tidal_token := some t })
        | _ => .error ()
      | _ => .error ()
    | none => .error ()

/-- Models `AudioService.get_tidal_token`: a cached truthy token is returned without
any network call; otherwise the token is fetched and memoized. -/
def get_tidal_token (auth : HttpJsonResponse) (s : ServiceState) :
    Except Unit (String × ServiceState) :=
  match s.tidal_token with
  | some t => if t != "" then .ok (t, s) else fetchTidalToken auth s
  | none => fetchTidalToken auth s

/-- Models `search_query = query or isrc` (Python truthiness on the hint). -/
def searchQuery (isrc query : String) : String :=
  if query != "" then query else isrc

/-- Models `item.get("isrc") == isrc` on one search result (a string comparison;
only string `isrc` fields can match). -/
def isrcMatch (isrc : String) (item : Json) : Bool :=
  match item with
  | .obj fields =>
    match lookupField fields "isrc" with
    | some (.str v) => v == isrc
    | _ => false
  | _ => false

/-- The `for item in items` loop of `search_tidal_by_isrc`: first item whose
`isrc` matches wins; `item.get(...)` on a non-dict item raises
(`.error ()`), which the surrounding handler turns into `None`. -/
def scanItemsForIsrc (isrc : String) : List Json → Except Unit (Option Json)
  | [] => .ok none
  | item :: rest =>
    match item with
    | .obj fields =>
      if isrcMatch isrc (.obj fields) then .ok (some (.obj fields))
      else scanItemsForIsrc isrc rest
    | _ => .error ()

/-- Models `AudioService.search_tidal_by_isrc`.  `searchResp` is the network oracle
for the catalog-search GET, keyed by the query string actually sent
(`query or isrc`).  Every raised exception is caught by the enclosing
handler and becomes `None`; the service state records a token fetched on the
way even when the search itself then fails. -/
def search_tidal_by_isrc (auth : HttpJsonResponse)
    (searchResp : String → HttpJsonResponse) (isrc query : String)
    (s : ServiceState) : Option Json × ServiceState :=
  match get_tidal_token auth s with
  | .error _ => (none, s)
  | .ok (_t, s1) =>
    let resp := searchResp (searchQuery isrc query)
    if resp.errored then (none, s1)
    else if !httpSuccess resp.status_code then (none, s1)
    else
      match resp.json with
      | none => (none, s1)
      | some data =>
        match data with
        | .obj fields =>
          match (lookupField fields "items").getD (.arr []) with
          | .arr items =>
            match scanItemsForIsrc isrc items with
            | .error _ => (none, s1)
            | .ok (some item) => (some item, s1)
            | .ok none => (items.head?, s1)
          | _ => (none, s1)
        | _ => (none, s1)

/-- Whether a JSON value is an object (`isinstance(x, dict)`). -/
def Json.isObj : Json → Bool
  | .obj _ => true
  | _ => false

theorem scanItemsForIsrc_eq_find (isrc : String) (items : List Json)
    (h : ∀ x ∈ items, x.isObj = true) :
    scanItemsForIsrc isrc items = .ok (items.find? (isrcMatch isrc)) := by
  induction items with
  | nil => rfl
  | cons x rest ih =>
    have hx := h x (List.mem_cons_self x rest)
    match x, hx with
    | .obj fields, _ =>
      by_cases hm : isrcMatch isrc (.obj fields) = true
      · simp [scanItemsForIsrc, List.find?, hm]
      · simp only [scanItemsForIsrc, List.find?, if_neg hm,
          Bool.not_eq_true] at hm ⊢
        rw [hm]
        simp only [ih (fun y hy => h y (List.mem_cons_of_mem _ hy))]

/-- C9: when the token is available and the catalog search returns a result
list `items` (each item a JSON object), `search_tidal_by_isrc` selects the
first item whose `isrc` field equals the requested identity if one exists,
otherwise the first item of the list; an empty list yields `none`. -/
theorem c9_search_selection (auth : HttpJsonResponse)
    (searchResp : String → HttpJsonResponse) (isrc query t : String)
    (s s1 : ServiceState) (fields : List (String × Json)) (items : List Json)
    (htok : get_tidal_token auth s = .ok (t, s1))
    (hne : (searchResp (searchQuery isrc query)).errored = false)
    (hst : httpSuccess (searchResp (searchQuery isrc query)).status_code = true)
    (hjson : (searchResp (searchQuery isrc query)).json = some (.obj fields))
    (hitems : lookupField fields "items" = some (.arr items))
    (hobj : ∀ x ∈ items, x.isObj = true) :
    search_tidal_by_isrc auth searchResp isrc query s =
      (match items.find? (isrcMatch isrc) with
       | some item => some item
       | none => items.head?, s1) := by
  unfold search_tidal_by_isrc
  rw [htok]
  simp [hne, hst, hjson, hitems, scanItemsForIsrc_eq_find isrc items hobj]
  cases items.find? (isrcMatch isrc) <;> rfl

/-- Concrete search-result list for the C9 witness: two result objects, the
second carrying the requested ISRC. -/
def c9Items : List Json :=
  [ .obj [("isrc", .str "GBX1"), ("id", .num 2)],
    .obj [("isrc", .str "US1"), ("id", .num 5)] ]

def c9SearchResp : String → HttpJsonResponse := fun _ =>
  { errored := false, status_code := 200,
    json := some (.obj [("items", .arr c9Items)]) }

def c9Auth : HttpJsonResponse :=
  { errored := true, status_code := 0, json := none }

theorem c9_search_selection_witness :
    get_tidal_token c9Auth { tidal_token := some "tok", working_api := none } =
      .ok ("tok", { tidal_token := some "tok", working_api := none }) ∧
    search_tidal_by_isrc c9Auth c9SearchResp "US1" ""
        { tidal_token := some "tok", working_api := none } =
      (some (.obj [("isrc", .str "US1"), ("id", .num 5)]),
        { tidal_token := some "tok", working_api := none }) := by
  refine ⟨rfl, ?_⟩
  exact c9_search_selection c9Auth c9SearchResp "US1" "" "tok"
    { tidal_token := some "tok", working_api := none }
    { tidal_token := some "tok", working_api := none }
    [("items", .arr c9Items)] c9Items rfl rfl rfl rfl rfl (by decide)

/-- C8 counterexample: with a token cached in the service state, a 401-class
rejection from the catalog search leaves the token in place (the state is
returned unchanged), and the next `get_tidal_token` call returns the cached
token without any fetch — the auth oracle here fails hard, so a fresh fetch
would have errored.  Also, with no cached token and a failing credential
endpoint, `get_tidal_token` errors immediately: there is no secondary
token-discovery retry anywhere in the code. -/
theorem c8_counterexample :
    search_tidal_by_isrc { errored := true, status_code := 0, json := none }
        (fun _ => { errored := false, status_code := 401, json := none }) "USX" ""
        { tidal_token := some "cached-token", working_api := none } =
      (none, { tidal_token := some "cached-token", working_api := none }) ∧
    get_tidal_token { errored := true, status_code := 0, json := none }
        { tidal_token := some "cached-token", working_api := none } =
      .ok ("cached-token", { tidal_token := some "cached-token", working_api := none }) ∧
    get_tidal_token { errored := true, status_code := 0, json := none }
        { tidal_token := none, working_api := none } = .error () :=
  ⟨rfl, rfl, rfl⟩

theorem search_tidal_state (auth : HttpJsonResponse)
    (searchResp : String → HttpJsonResponse) (isrc query t : String)
    (s s1 : ServiceState) (htok : get_tidal_token auth s = .ok (t, s1)) :
    (search_tidal_by_isrc auth searchResp isrc query s).2 = s1 := by
  unfold search_tidal_by_isrc
  rw [htok]
  dsimp only
  repeat first | rfl | split

/-- C8 amended: the bearer token is cached in memory indefinitely — while a
truthy token is cached, `get_tidal_token` returns it with no fetch and no
state change, and a catalog search (whatever the provider answers, including
a 401 rejection) never clears it; a failed credential fetch errors
immediately, with no secondary token-discovery retry. -/
theorem c8_token_never_cleared (auth : HttpJsonResponse)
    (searchResp : String → HttpJsonResponse) (isrc query t : String)
    (s : ServiceState) (htok : s.tidal_token = some t) (hne : t ≠ "") :
    get_tidal_token auth s = .ok (t, s) ∧
    (search_tidal_by_isrc auth searchResp isrc query s).2 = s ∧
    (∀ a : HttpJsonResponse, a.errored = true ∨ httpSuccess a.status_code = false →
      ∀ w, get_tidal_token a { tidal_token := none, working_api := w } = .error ()) := by
  have h1 : get_tidal_token auth s = .ok (t, s) := by
    simp [get_tidal_token, htok, hne]
  refine ⟨h1, search_tidal_state auth searchResp isrc query t s s h1, ?_⟩
  intro a ha w
  rcases ha with h | h <;> simp [get_tidal_token, fetchTidalToken, h]

theorem c8_token_never_cleared_witness :
    ServiceState.tidal_token { tidal_token := some "tok", working_api := none } =
      some "tok" ∧
    get_tidal_token { errored := true, status_code := 0, json := none }
        { tidal_token := some "tok", working_api := none } =
      .ok ("tok", { tidal_token := some "tok", working_api := none }) ∧
    (search_tidal_by_isrc { errored := true, status_code := 0, json := none }
        (fun _ => { errored := false, status_code := 401, json := none }) "USX" "hint"
        { tidal_token := some "tok", working_api := none }).2 =
      { tidal_token := some "tok", working_api := none } ∧
    get_tidal_token { errored := true, status_code := 0, json := none }
        { tidal_token := none, working_api := none } = .error () := by
  have h := c8_token_never_cleared { errored := true, status_code := 0, json := none }
    (fun _ => { errored := false, status_code := 401, json := none }) "USX" "hint" "tok"
    { tidal_token := some "tok", working_api := none } rfl (by decide)
  exact ⟨rfl, h.1, h.2.1, h.2.2 _ (Or.inl rfl) none⟩

/-! Part: Secondary provider (Deezer) and `fetch_flac` -/

/-- Models `AudioService.get_deezer_track_id`, as a function of the response to the
ISRC lookup.  Any raised exception (including `.get` on a non-dict body) is
caught and becomes `None`; a body carrying an `"error"` key yields `None`;
non-integer `id` payloads are not modelled. -/
def get_deezer_track_id (resp : HttpJsonResponse) : Option Int :=
  if resp.errored then none
  else if resp.status_code != 200 then none
  else
    match resp.json with
    | none => none
    | some data =>
      match data with
      | .obj fields =>
        if (lookupField fields "error").isSome then none
        else
          match lookupField fields "id" with
          | some (.num n) => some n
          | _ => none
      | _ => none

/-- Models `AudioService.get_deezer_download_url`, as a function of the response to
`{DEEZER_API_URL}/dl/{track_id}`: requires status 200, a parsable body, a
truthy `"success"` field, and a string `links.flac` entry. -/
def get_deezer_download_url (resp : HttpJsonResponse) : Option String :=
  if resp.errored then none
  else if resp.status_code != 200 then none
  else
    match resp.json with
    | none => none
    | some data =>
      match data with
      | .obj fields =>
        if jsonTruthy ((lookupField fields "success").getD .null) then
          match (lookupField fields "links").getD (.obj []) with
          | .obj linkFields =>
            match lookupField linkFields "flac" with
            | some (.str u) => some u
            | _ => none
          | _ => none
        else none
      | _ => none

/-- Outcome of downloading the resolved URL (`client.get(download_url)`). -/
structure DownloadResponse where
  errored : Bool
  status_code : Nat
  content_type : String
  content : List Nat

/-- Models `tidal_track.get("id")`, as passed to `get_tidal_download_url`
(typed `int` there; non-integer ids are not modelled). -/
def extractTrackId (track : Json) : Int :=
  match track with
  | .obj fields =>
    match lookupField fields "id" with
    | some (.num n) => n
    | _ => 0
  | _ => 0

/-- Result of one run of the FFmpeg subprocess: `not_found` models
`FileNotFoundError` on spawn, `other_error` any other raised exception,
otherwise the exit code, captured stdout and decoded stderr. -/
structure EncoderRun where
  not_found : Bool
  other_error : Bool
  returncode : Int
  output : List Nat
  stderr : String

/-- Outcome of the HiFi passthrough upstream GET. -/
structure UpstreamResponse where
  errored : Bool
  status_code : Nat
  headers : List (String × String)

/-- All network oracles consumed by the audio pipeline: `decode` the
base64+JSON manifest decoding, `responses` the Tidal download-URL endpoints
(keyed by full request URL), `auth`/`searchResp` the token and catalog
search, `download` the byte download of a resolved URL, `deezerLookup` and
`deezerDl` the two Deezer endpoints (keyed by ISRC and track id), `encoder`
the FFmpeg subprocess (keyed by input bytes and bitrate), `proxyUpstream`
the HiFi passthrough GET (keyed by URL and optional Range header). -/
structure Env where
  decode : String → Option Json
  responses : String → ApiResponse
  auth : HttpJsonResponse
  searchResp : String → HttpJsonResponse
  download : String → DownloadResponse
  deezerLookup : String → HttpJsonResponse
  deezerDl : Int → HttpJsonResponse
  encoder : List Nat → String → EncoderRun
  proxyUpstream : String → Option String → UpstreamResponse

/-- The Deezer half of `AudioService.fetch_flac` (lines 262-279). -/
def fetchFlacDeezer (env : Env) (isrc : String) (s : ServiceState) :
    Option (List Nat) × ServiceState :=
  match get_deezer_track_id (env.deezerLookup isrc) with
  | some deezer_id =>
    if deezer_id != 0 then
      match get_deezer_download_url (env.deezerDl deezer_id) with
      | some download_url =>
        let resp := env.download download_url
        if !resp.errored && resp.status_code == 200 then (some resp.content, s)
        else (none, s)
      | none => (none, s)
    else (none, s)
  | none => (none, s)

/-- Models `AudioService.fetch_flac`: Tidal (search → URL resolution → download)
first, Deezer as fallback, `None` on total exhaustion.  Every network
failure on the way is caught and drives the fallback. -/
def fetch_flac (env : Env) (isrc query : String) (s : ServiceState) :
    Option (List Nat) × ServiceState :=
  let searchOut := search_tidal_by_isrc env.auth env.searchResp isrc query s
  match searchOut with
  | (some tidal_track, s1) =>
    if jsonTruthy tidal_track then
      match get_tidal_download_url env.decode env.responses
          (extractTrackId tidal_track) "LOSSLESS" s1 with
      | (some download_url, s2) =>
        let resp := env.download download_url
        if !resp.errored && resp.status_code == 200 then (some resp.content, s2)
        else fetchFlacDeezer env isrc s2
      | (none, s2) => fetchFlacDeezer env isrc s2
    else fetchFlacDeezer env isrc s1
  | (none, s1) => fetchFlacDeezer env isrc s1

theorem tryApisFrom_all_none (decode : String → Option Json)
    (responses : String → ApiResponse) (track_id : Int) (quality : String)
    (hall : ∀ u, urlFromApiResponse decode (responses u) = none)
    (l : List String) (s : ServiceState) :
    tryApisFrom decode responses track_id quality l s = (none, s) := by
  induction l with
  | nil => rfl
  | cons a rest ih =>
    simp only [tryApisFrom, get_tidal_download_url_from_api, hall]
    exact ih

/-- C2: if the download-URL resolution fails on every primary-provider
endpoint (whatever the endpoint and the track id) and the secondary
provider's resolution also fails — either the ISRC lookup yields no id, or
the download-URL endpoint yields no FLAC link for the id it found — then
`fetch_flac` returns `none`.  In the embedding every fallible step is
total and `Option`-valued, matching the source, where each per-step
exception is caught: exhaustion is reported as `None`, never as a raised
exception. -/
theorem c2_total_exhaustion (env : Env) (isrc query : String) (s : ServiceState)
    (hprimary : ∀ u, urlFromApiResponse env.decode (env.responses u) = none)
    (hsecondary : ∀ deezer_id : Int,
      get_deezer_track_id (env.deezerLookup isrc) = some deezer_id →
      get_deezer_download_url (env.deezerDl deezer_id) = none) :
    (fetch_flac env isrc query s).1 = none := by
  have hdz : ∀ s2 : ServiceState, fetchFlacDeezer env isrc s2 = (none, s2) := by
    intro s2
    unfold fetchFlacDeezer
    split
    next deezer_id heq =>
      split
      next hz => rw [hsecondary deezer_id heq]
      next hz => rfl
    next heq => rfl
  unfold fetch_flac
  cases hsearch : search_tidal_by_isrc env.auth env.searchResp isrc query s with
  | mk track s1 =>
    cases track with
    | none => simp [hdz]
    | some tidal_track =>
      by_cases ht : jsonTruthy tidal_track = true
      · simp only [ht, if_true]
        rw [show get_tidal_download_url env.decode env.responses
            (extractTrackId tidal_track) "LOSSLESS" s1 = (none, s1) from
          tryApisFrom_all_none env.decode env.responses _ _ hprimary _ s1]
        simp [hdz]
      · simp only [Bool.not_eq_true] at ht
        simp [ht, hdz]

/-- Environment for the C2 witness: the token fetch succeeds and the search
finds a track, but every Tidal endpoint answers 500, and Deezer knows the
ISRC but its download endpoint reports failure. -/
def c2Env : Env :=
  { decode := fun _ => none,
    responses := fun _ =>
      { timed_out := false, errored := false, status_code := 500,
        content_type := "application/json", json := none },
    auth :=
      { errored := false, status_code := 200,
        json := some (.obj [("access_token", .str "tok")]) },
    searchResp := fun _ =>
      { errored := false, status_code := 200,
        json := some (.obj [("items",
          .arr [.obj [("isrc", .str "US42"), ("id", .num 7)]])]) },
    download := fun _ =>
      { errored := false, status_code := 200, content_type := "audio/flac",
        content := [1, 2, 3] },
    deezerLookup := fun _ =>
      { errored := false, status_code := 200,
        json := some (.obj [("id", .num 99)]) },
    deezerDl := fun _ =>
      { errored := false, status_code := 200,
        json := some (.obj [("success", .bool false)]) },
    encoder := fun _ _ =>
      { not_found := false, other_error := false, returncode := 0,
        output := [9], stderr := "" },
    proxyUpstream := fun _ _ =>
      { errored := false, status_code := 200, headers := [] } }

theorem c2_total_exhaustion_witness :
    urlFromApiResponse c2Env.decode
      (c2Env.responses (trackRequestUrl "https://tidal.kinoplus.online" 7 "LOSSLESS")) =
      none ∧
    get_deezer_download_url (c2Env.deezerDl 99) = none ∧
    (fetch_flac c2Env "US42" "" { tidal_token := none, working_api := none }).1 =
      none := by
  refine ⟨rfl, rfl, ?_⟩
  exact c2_total_exhaustion c2Env "US42" ""
    { tidal_token := none, working_api := none }
    (fun u => rfl) (fun deezer_id h => by
      have h9 : (99 : Int) = deezer_id := by
        simpa [get_deezer_track_id, c2Env, lookupField] using h
      subst h9; rfl)

/-! Part: Transcoding engine (`AudioService.transcode_to_mp3`) -/

/-- Models `MP3_BITRATE` default from `audio_service.py`. -/
def BITRATE : String := "320k"

/-- What `transcode_to_mp3` writes to the log on a failing path: the
FFmpeg-not-found message, the FFmpeg-error message carrying the first 500
characters of the decoded stderr, or the generic transcode-error message. -/
inductive TranscodeLog where
  | ffmpegNotFound
  | ffmpegError (diagnostic_tail : String)
  | otherError
deriving DecidableEq

/-- Models `AudioService.transcode_to_mp3`: spawn FFmpeg on the given input and
bitrate, return the captured stdout on exit code 0 and `None` on every
failing path (`FileNotFoundError`, any other exception, or a non-zero exit
code), together with what was logged. -/
def transcode_to_mp3 (run : List Nat → String → EncoderRun)
    (flac_data : List Nat) (bitrate : String) :
    Option (List Nat) × Option TranscodeLog :=
  let r := run flac_data bitrate
  if r.not_found then (none, some .ffmpegNotFound)
  else if r.other_error then (none, some .otherError)
  else if r.returncode != 0 then
    (none, some (.ffmpegError (String.mk (r.stderr.data.take 500))))
  else (some r.output, none)

/-- C5 counterexample: a missing encoder and an encoder exiting with code 1
both surface to the caller as the same value, `none` — there is no
`TranscodeError` / `EncoderFailure` distinction in the returned value. -/
theorem c5_counterexample :
    (transcode_to_mp3
      (fun _ _ => { not_found := true, other_error := false, returncode := 0,
                    output := [], stderr := "" }) [1, 2] "320k").1 = none ∧
    (transcode_to_mp3
      (fun _ _ => { not_found := false, other_error := false, returncode := 1,
                    output := [], stderr := "boom" }) [1, 2] "320k").1 = none ∧
    (transcode_to_mp3
      (fun _ _ => { not_found := true, other_error := false, returncode := 0,
                    output := [], stderr := "" }) [1, 2] "320k").1 =
    (transcode_to_mp3
      (fun _ _ => { not_found := false, other_error := false, returncode := 1,
                    output := [], stderr := "boom" }) [1, 2] "320k").1 :=
  ⟨rfl, rfl, rfl⟩

/-- C5 amended: both failure kinds yield an absent (`None`) result — the
caller cannot tell them apart from the return value; the distinction exists
only in the log, where a missing encoder logs the FFmpeg-not-found message
and a non-zero exit logs the first 500 characters of the captured stderr. -/
theorem c5_transcode_failures (run : List Nat → String → EncoderRun)
    (flac_data : List Nat) (bitrate : String) :
    ((run flac_data bitrate).not_found = true →
      transcode_to_mp3 run flac_data bitrate = (none, some .ffmpegNotFound)) ∧
    ((run flac_data bitrate).not_found = false →
      (run flac_data bitrate).other_error = false →
      (run flac_data bitrate).returncode ≠ 0 →
      transcode_to_mp3 run flac_data bitrate =
        (none, some (.ffmpegError
          (String.mk ((run flac_data bitrate).stderr.data.take 500))))) := by
  constructor
  · intro h
    simp [transcode_to_mp3, h]
  · intro h1 h2 h3
    simp [transcode_to_mp3, h1, h2, h3]

theorem c5_transcode_failures_witness :
    ({ not_found := true, other_error := false, returncode := 0, output := [],
       stderr := "" } : EncoderRun).not_found = true ∧
    transcode_to_mp3
      (fun _ _ => { not_found := true, other_error := false, returncode := 0,
                    output := [], stderr := "" }) [7] "320k" =
      (none, some .ffmpegNotFound) ∧
    transcode_to_mp3
      (fun _ _ => { not_found := false, other_error := false, returncode := 1,
                    output := [], stderr := "boom" }) [7] "320k" =
      (none, some (.ffmpegError "boom")) := by
  refine ⟨rfl, ?_, ?_⟩
  · exact (c5_transcode_failures
      (fun _ _ => { not_found := true, other_error := false, returncode := 0,
                    output := [], stderr := "" }) [7] "320k").1 rfl
  · exact (c5_transcode_failures
      (fun _ _ => { not_found := false, other_error := false, returncode := 1,
                    output := [], stderr := "boom" }) [7] "320k").2 rfl rfl
      (by decide)

/-! Part: Cache store and `AudioService.get_audio_stream` -/

/-- Modelled from the spec: the cache module `app/cache.py` is not among the
sources; per the spec (§4.1, §6) it is a content-addressed store with at
most one entry per (identity, format) pair, checked by deterministic path
existence and read/written as whole files.  We model its state as an
association list keyed by (identity, format); `cacheLookup` is the read. -/
def CacheStore : Type := List ((String × String) × List Nat)

/-- Modelled from the spec: cache read (`read(identity, format) ->
bytes | absent`). -/
def cacheLookup : CacheStore → String → String → Option (List Nat)
  | [], _, _ => none
  | ((key, data) : (String × String) × List Nat) :: rest, isrc, ext =>
    if key = (isrc, ext) then some data else cacheLookup rest isrc ext

/-- Modelled from the spec: `is_cached(identity, format)` — deterministic
existence check. -/
def is_cached (c : CacheStore) (isrc ext : String) : Bool :=
  (cacheLookup c isrc ext).isSome

/-- Modelled from the spec: `get_cached_file(identity, format)`. -/
def get_cached_file (c : CacheStore) (isrc ext : String) : Option (List Nat) :=
  cacheLookup c isrc ext

/-- Modelled from the spec: `cache_file(identity, data, format)` — atomic
write-through; the new entry shadows any previous one for the same key. -/
def cache_file (c : CacheStore) (isrc : String) (data : List Nat) (ext : String) :
    CacheStore :=
  ((isrc, ext), data) :: c

/-- Models `AudioService.get_audio_stream`: serve a truthy cached MP3, else fetch
FLAC, transcode, cache a truthy result, and return it (`None` when fetching
or transcoding failed). -/
def get_audio_stream (env : Env) (isrc query : String) (s : ServiceState)
    (c : CacheStore) : Option (List Nat) × ServiceState × CacheStore :=
  let cached : Option (List Nat) :=
    if is_cached c isrc "mp3" then
      match get_cached_file c isrc "mp3" with
      | some d => if d.isEmpty then none else some d
      | none => none
    else none
  match cached with
  | some d => (some d, s, c)
  | none =>
    match fetch_flac env isrc query s with
    | (none, s1) => (none, s1, c)
    | (some flac_data, s1) =>
      if flac_data.isEmpty then (none, s1, c)
      else
        match (transcode_to_mp3 env.encoder flac_data BITRATE).1 with
        | none => (none, s1, c)
        | some mp3_data =>
          if mp3_data.isEmpty then (some mp3_data, s1, c)
          else (some mp3_data, s1, cache_file c isrc mp3_data "mp3")

/-! Part: Route `GET/HEAD /api/stream/{isrc}` (`main.stream_audio`) -/

/-- Models `s.startswith(pre)`. -/
def startsWithStr (s pre : String) : Bool :=
  pre.data.isPrefixOf s.data

/-- Models `s.endswith(suffix)`. -/
def endsWithStr (s suffix : String) : Bool :=
  suffix.data.reverse.isPrefixOf s.data.reverse

/-- First-match lookup in a header list (`key in r.headers` /
`r.headers[key]`; httpx canonicalizes header names, our oracles use the
exact casing the route queries). -/
def headerLookup : List (String × String) → String → Option String
  | [], _ => none
  | (k, v) :: rest, key => if k = key then some v else headerLookup rest key

/-- The content-type / format-name detection from the stream URL
(lines 477-484 of `main.py`). -/
def detectContentType (stream_url : String) : String × String :=
  if containsSubstr stream_url ".mp4" || containsSubstr stream_url ".m4a" then
    ("audio/mp4", "AAC")
  else if containsSubstr stream_url ".mp3" then ("audio/mpeg", "MP3")
  else ("audio/flac", "FLAC")

/-- The response-header dict built for the proxied `StreamingResponse`
(lines 509-519): the three fixed entries, then `Content-Range`,
`Content-Length` and `Content-Type` copied from the upstream response when
present. -/
def forwardedHeaders (u : UpstreamResponse) (format_name : String) :
    List (String × String) :=
  [("Accept-Ranges", "bytes"), ("Cache-Control", "no-cache"),
   ("X-Audio-Format", format_name)] ++
    (["Content-Range", "Content-Length", "Content-Type"].filterMap
      (fun k => (headerLookup u.headers k).map (fun v => (k, v))))

/-- Observable outcome of the `stream_audio` route handler. -/
inductive StreamResult where
  /-- Models `LINK:`-prefixed ids are proxied by `handle_link_stream` (not in the
  sources). -/
  | linkProxy
  /-- Models `ytm_`-prefixed ids are proxied by `handle_ytm_stream` (not in the
  sources). -/
  | ytmProxy
  /-- Models `FileResponse` serving the cache file. -/
  | cacheHit (data : List Nat) (mime : String)
  /-- HEAD short-circuit of the HiFi proxy path. -/
  | headInfo (content_type format_name : String)
  /-- Proxied `StreamingResponse`: the headers sent upstream, the relayed
  status code, the response headers, and the media type. -/
  | proxied (upstreamHeaders : List (String × String)) (status : Nat)
      (respHeaders : List (String × String)) (mediaType : String)
  /-- The HiFi MP3-transcode fallback `Response`. -/
  | mp3Fallback (data : List Nat)
  /-- Models `HTTPException(404)` (`"Could not fetch audio"`). -/
  | notFound
  /-- The default streamed-transcode `StreamingResponse`
  (`stream_audio_generator`, not in the sources). -/
  | transcodeStream
deriving DecidableEq

/-- The MP3-transcode fallback at the end of the HiFi branch
(lines 534-548): serve a truthy `get_audio_stream` result, else 404. -/
def hifiFallback (env : Env) (isrc qs : String) (s : ServiceState)
    (c : CacheStore) : StreamResult × ServiceState × CacheStore :=
  match get_audio_stream env isrc qs s c with
  | (some mp3_data, s1, c1) =>
    if mp3_data.isEmpty then (.notFound, s1, c1)
    else (.mp3Fallback mp3_data, s1, c1)
  | (none, s1, c1) => (.notFound, s1, c1)

/-- The `stream_audio` route handler of `main.py` (lines 417-566), for
non-`LINK:`/`ytm_` identities dispatching on cache, HiFi proxy and the
fallback; the untranscoded default path hands off to
`stream_audio_generator`, which is outside the modelled sources. -/
def stream_audio (env : Env) (isrc : String) (q : Option String) (hifi : Bool)
    (method : String) (rangeHeader : Option String) (s : ServiceState)
    (c : CacheStore) : StreamResult × ServiceState × CacheStore :=
  if startsWithStr isrc "LINK:" then (.linkProxy, s, c)
  else if startsWithStr isrc "ytm_" then (.ytmProxy, s, c)
  else
    let cache_ext := if hifi then "flac" else "mp3"
    let mime_type := if hifi then "audio/flac" else "audio/mpeg"
    if is_cached c isrc cache_ext then
      (.cacheHit ((cacheLookup c isrc cache_ext).getD []) mime_type, s, c)
    else if hifi then
      let qs := match q with
        | some v => v
        | none => ""
      let resolved : Option String × ServiceState :=
        if qs != "" then
          match search_tidal_by_isrc env.auth env.searchResp isrc qs s with
          | (some tidal_track, s1) =>
            if jsonTruthy tidal_track then
              get_tidal_download_url env.decode env.responses
                (extractTrackId tidal_track) "LOSSLESS" s1
            else (none, s1)
          | (none, s1) => (none, s1)
        else (none, s)
      match resolved with
      | (some stream_url, s1) =>
        let ct := detectContentType stream_url
        if method = "HEAD" then (.headInfo ct.1 ct.2, s1, c)
        else
          let upstreamHeaders : List (String × String) :=
            match rangeHeader with
            | some r => [("Range", r)]
            | none => []
          let u := env.proxyUpstream stream_url rangeHeader
          if u.errored then hifiFallback env isrc qs s1 c
          else
            (.proxied upstreamHeaders u.status_code (forwardedHeaders u ct.2)
              ((headerLookup u.headers "Content-Type").getD ct.1), s1, c)
      | (none, s1) => hifiFallback env isrc qs s1 c
    else (.transcodeStream, s, c)

/-- C3: for an identity whose (identity, format) pair is cached, the stream
route serves exactly the cached bytes via `FileResponse`, its outcome is
independent of every upstream oracle (no search, no URL resolution, no
download, no transcode), and — at the service level, for a truthy cached
MP3 — `get_audio_stream` returns the cached bytes with state and cache
untouched, again independently of the oracles. -/
theorem c3_cache_hit (env : Env) (isrc : String) (q : Option String)
    (hifi : Bool) (method : String) (range : Option String) (s : ServiceState)
    (c : CacheStore) (b : List Nat)
    (hL : startsWithStr isrc "LINK:" = false)
    (hY : startsWithStr isrc "ytm_" = false)
    (hcache : cacheLookup c isrc (if hifi then "flac" else "mp3") = some b) :
    stream_audio env isrc q hifi method range s c =
      (.cacheHit b (if hifi then "audio/flac" else "audio/mpeg"), s, c) ∧
    (∀ env2 : Env, stream_audio env2 isrc q hifi method range s c =
      stream_audio env isrc q hifi method range s c) ∧
    (∀ (env2 : Env) (query : String), hifi = false → b.isEmpty = false →
      get_audio_stream env2 isrc query s c = (some b, s, c)) := by
  have hroute : ∀ e : Env, stream_audio e isrc q hifi method range s c =
      (.cacheHit b (if hifi then "audio/flac" else "audio/mpeg"), s, c) := by
    intro e
    unfold stream_audio
    simp [hL, hY, is_cached, hcache]
  refine ⟨hroute env, fun env2 => (hroute env2).trans (hroute env).symm, ?_⟩
  intro env2 query hh hb
  subst hh
  simp at hcache
  unfold get_audio_stream
  simp [is_cached, get_cached_file, hcache, hb]

/-- A closed environment whose oracles are all trivially failing; used by
witnesses that must not depend on upstream behaviour. -/
def dummyEnv : Env :=
  { decode := fun _ => none,
    responses := fun _ =>
      { timed_out := true, errored := false, status_code := 0,
        content_type := "", json := none },
    auth := { errored := true, status_code := 0, json := none },
    searchResp := fun _ => { errored := true, status_code := 0, json := none },
    download := fun _ =>
      { errored := true, status_code := 0, content_type := "", content := [] },
    deezerLookup := fun _ => { errored := true, status_code := 0, json := none },
    deezerDl := fun _ => { errored := true, status_code := 0, json := none },
    encoder := fun _ _ =>
      { not_found := true, other_error := false, returncode := 0, output := [],
        stderr := "" },
    proxyUpstream := fun _ _ =>
      { errored := true, status_code := 0, headers := [] } }

theorem c3_cache_hit_witness :
    startsWithStr "US11111111" "LINK:" = false ∧
    cacheLookup [(("US11111111", "mp3"), [4, 5, 6])] "US11111111" "mp3" =
      some [4, 5, 6] ∧
    stream_audio dummyEnv "US11111111" none false "GET" none
        { tidal_token := none, working_api := none }
        [(("US11111111", "mp3"), [4, 5, 6])] =
      (.cacheHit [4, 5, 6] "audio/mpeg", { tidal_token := none, working_api := none },
        [(("US11111111", "mp3"), [4, 5, 6])]) ∧
    get_audio_stream dummyEnv "US11111111" ""
        { tidal_token := none, working_api := none }
        [(("US11111111", "mp3"), [4, 5, 6])] =
      (some [4, 5, 6], { tidal_token := none, working_api := none },
        [(("US11111111", "mp3"), [4, 5, 6])]) := by
  have h := c3_cache_hit dummyEnv "US11111111" none false "GET" none
    { tidal_token := none, working_api := none }
    [(("US11111111", "mp3"), [4, 5, 6])] [4, 5, 6]
    (by decide) (by decide) rfl
  exact ⟨by decide, rfl, h.1, h.2.2 dummyEnv "" rfl rfl⟩

theorem headerLookup_forwarded (u : UpstreamResponse) (fn k v : String)
    (hk : k = "Content-Range" ∨ k = "Content-Length" ∨ k = "Content-Type")
    (hv : headerLookup u.headers k = some v) :
    headerLookup (forwardedHeaders u fn) k = some v := by
  rcases hk with rfl | rfl | rfl
  · simp [forwardedHeaders, headerLookup, hv]
  · cases hcr : headerLookup u.headers "Content-Range" <;>
      simp [forwardedHeaders, headerLookup, hv, hcr]
  · cases hcr : headerLookup u.headers "Content-Range" <;>
      cases hcl : headerLookup u.headers "Content-Length" <;>
        simp [forwardedHeaders, headerLookup, hv, hcr, hcl]

/-- C4: on the HiFi passthrough path — cache miss, hint present, search and
URL resolution successful, a non-HEAD request carrying a Range header, and a
successful upstream send — the upstream request carries exactly the inbound
`Range` header, the response relays the upstream status code, and each of
`Content-Range`/`Content-Length`/`Content-Type` supplied by the upstream is
relayed unchanged in the response headers. -/
theorem c4_range_passthrough (env : Env) (isrc qs : String)
    (method : String) (range_value : String) (s s1 s2 : ServiceState)
    (c : CacheStore) (track : Json) (url : String)
    (hL : startsWithStr isrc "LINK:" = false)
    (hY : startsWithStr isrc "ytm_" = false)
    (hcache : cacheLookup c isrc "flac" = none)
    (hqs : qs ≠ "")
    (hsearch : search_tidal_by_isrc env.auth env.searchResp isrc qs s =
      (some track, s1))
    (htruthy : jsonTruthy track = true)
    (hres : get_tidal_download_url env.decode env.responses
      (extractTrackId track) "LOSSLESS" s1 = (some url, s2))
    (hmethod : method ≠ "HEAD")
    (herr : (env.proxyUpstream url (some range_value)).errored = false) :
    stream_audio env isrc (some qs) true method (some range_value) s c =
      (.proxied [("Range", range_value)]
        (env.proxyUpstream url (some range_value)).status_code
        (forwardedHeaders (env.proxyUpstream url (some range_value))
          (detectContentType url).2)
        ((headerLookup (env.proxyUpstream url (some range_value)).headers
          "Content-Type").getD (detectContentType url).1), s2, c) ∧
    (∀ k v, (k = "Content-Range" ∨ k = "Content-Length" ∨ k = "Content-Type") →
      headerLookup (env.proxyUpstream url (some range_value)).headers k = some v →
      headerLookup (forwardedHeaders (env.proxyUpstream url (some range_value))
        (detectContentType url).2) k = some v) := by
  refine ⟨?_, fun k v hk hv => headerLookup_forwarded _ _ k v hk hv⟩
  unfold stream_audio
  simp [hL, hY, is_cached, hcache, hqs, hsearch, htruthy, hres, hmethod, herr]

/-- Environment for the C4 witness: the search finds a track with id 7,
every endpoint serves a flat record with the passthrough URL, and the
upstream answers 206 with range headers. -/
def c4Env : Env :=
  { decode := fun _ => none,
    responses := fun _ =>
      { timed_out := false, errored := false, status_code := 200,
        content_type := "application/json",
        json := some (.obj [("url", .str "https://cdn.example/pass.flac")]) },
    auth :=
      { errored := false, status_code := 200,
        json := some (.obj [("access_token", .str "tok")]) },
    searchResp := fun _ =>
      { errored := false, status_code := 200,
        json := some (.obj [("items",
          .arr [.obj [("isrc", .str "US77"), ("id", .num 7)]])]) },
    download := fun _ =>
      { errored := true, status_code := 0, content_type := "", content := [] },
    deezerLookup := fun _ => { errored := true, status_code := 0, json := none },
    deezerDl := fun _ => { errored := true, status_code := 0, json := none },
    encoder := fun _ _ =>
      { not_found := true, other_error := false, returncode := 0, output := [],
        stderr := "" },
    proxyUpstream := fun _ _ =>
      { errored := false, status_code := 206,
        headers := [("Content-Range", "bytes 100-199/1000"),
                    ("Content-Length", "100"),
                    ("Content-Type", "audio/flac")] } }

theorem c4_range_passthrough_witness :
    cacheLookup [] "US77" "flac" = none ∧
    search_tidal_by_isrc c4Env.auth c4Env.searchResp "US77" "hint"
        { tidal_token := none, working_api := none } =
      (some (.obj [("isrc", .str "US77"), ("id", .num 7)]),
        { tidal_token := some "tok", working_api := none }) ∧
    stream_audio c4Env "US77" (some "hint") true "GET" (some "bytes=100-199")
        { tidal_token := none, working_api := none } [] =
      (.proxied [("Range", "bytes=100-199")] 206
        [("Accept-Ranges", "bytes"), ("Cache-Control", "no-cache"),
         ("X-Audio-Format", "FLAC"),
         ("Content-Range", "bytes 100-199/1000"), ("Content-Length", "100"),
         ("Content-Type", "audio/flac")] "audio/flac",
        { tidal_token := some "tok",
          working_api := some "https://tidal.kinoplus.online" }, []) ∧
    headerLookup
      (forwardedHeaders
        (c4Env.proxyUpstream "https://cdn.example/pass.flac" (some "bytes=100-199"))
        "FLAC") "Content-Range" = some "bytes 100-199/1000" := by
  have h := c4_range_passthrough c4Env "US77" "hint" "GET" "bytes=100-199"
    { tidal_token := none, working_api := none }
    { tidal_token := some "tok", working_api := none }
    { tidal_token := some "tok", working_api := some "https://tidal.kinoplus.online" }
    [] (.obj [("isrc", .str "US77"), ("id", .num 7)])
    "https://cdn.example/pass.flac"
    (by decide) (by decide) rfl (by decide) rfl rfl rfl (by decide) rfl
  exact ⟨rfl, rfl, h.1, h.2 "Content-Range" "bytes 100-199/1000" (Or.inl rfl) rfl⟩

theorem get_audio_stream_proxy_irrel (env : Env)
    (p : String → Option String → UpstreamResponse) (isrc query : String)
    (s : ServiceState) (c : CacheStore) :
    get_audio_stream { env with proxyUpstream := p } isrc query s c =
      get_audio_stream env isrc query s c := by
  rcases env with ⟨_, _, _, _, _, _, _, _, _⟩
  rfl

/-- C10: a HiFi request with no (or an empty) search hint whose FLAC cache
entry is absent never resolves a stream URL for proxying: the route goes
straight to the MP3-transcode fallback — its outcome is exactly the
fallback of `get_audio_stream` (a `mp3Fallback` response or a 404), it does
not depend on the proxy upstream oracle, and it is never a proxied byte
stream. -/
theorem c10_no_hint_no_proxy (env : Env) (isrc : String) (q : Option String)
    (method : String) (range : Option String) (s : ServiceState) (c : CacheStore)
    (hL : startsWithStr isrc "LINK:" = false)
    (hY : startsWithStr isrc "ytm_" = false)
    (hcache : cacheLookup c isrc "flac" = none)
    (hq : q = none ∨ q = some "") :
    stream_audio env isrc q true method range s c =
      (match get_audio_stream env isrc "" s c with
       | (some d, s1, c1) =>
         if d.isEmpty then (.notFound, s1, c1) else (.mp3Fallback d, s1, c1)
       | (none, s1, c1) => (.notFound, s1, c1)) ∧
    (∀ p : String → Option String → UpstreamResponse,
      stream_audio { env with proxyUpstream := p } isrc q true method range s c =
        stream_audio env isrc q true method range s c) ∧
    (∀ uh st h m, (stream_audio env isrc q true method range s c).1 ≠
      .proxied uh st h m) := by
  have hmain : ∀ e : Env, stream_audio e isrc q true method range s c =
      (match get_audio_stream e isrc "" s c with
       | (some d, s1, c1) =>
         if d.isEmpty then (.notFound, s1, c1) else (.mp3Fallback d, s1, c1)
       | (none, s1, c1) => (.notFound, s1, c1)) := by
    intro e
    unfold stream_audio
    rcases hq with rfl | rfl <;>
      simp [hL, hY, is_cached, hcache, hifiFallback]
  have hirrel : ∀ p, stream_audio { env with proxyUpstream := p }
      isrc q true method range s c =
      stream_audio env isrc q true method range s c := by
    intro p
    rw [hmain { env with proxyUpstream := p }, hmain env,
      get_audio_stream_proxy_irrel env p isrc "" s c]
  refine ⟨hmain env, hirrel, ?_⟩
  intro uh st h m
  rw [hmain env]
  rcases hga : get_audio_stream env isrc "" s c with ⟨d, s1, c1⟩
  cases d with
  | none => simp
  | some bytes =>
    by_cases hb : bytes.isEmpty = true <;> simp [hb]

theorem c10_no_hint_no_proxy_witness :
    cacheLookup [] "US33333333" "flac" = none ∧
    stream_audio dummyEnv "US33333333" none true "GET" none
        { tidal_token := none, working_api := none } [] =
      (.notFound, { tidal_token := none, working_api := none }, []) ∧
    stream_audio
        { dummyEnv with proxyUpstream := fun _ _ =>
            { errored := false, status_code := 200, headers := [] } }
        "US33333333" none true "GET" none
        { tidal_token := none, working_api := none } [] =
      stream_audio dummyEnv "US33333333" none true "GET" none
        { tidal_token := none, working_api := none } [] ∧
    (stream_audio dummyEnv "US33333333" none true "GET" none
        { tidal_token := none, working_api := none } []).1 ≠
      .proxied [] 200 [] "audio/flac" := by
  have h := c10_no_hint_no_proxy dummyEnv "US33333333" none "GET" none
    { tidal_token := none, working_api := none } []
    (by decide) (by decide) rfl (Or.inl rfl)
  exact ⟨rfl, h.1.trans rfl,
    h.2.1 (fun _ _ => { errored := false, status_code := 200, headers := [] }),
    h.2.2 [] 200 [] "audio/flac"⟩

/-! Part: Route `GET /api/download/{isrc}` (`main.download_audio`) -/

/-- Observable outcome of the `download_audio` route handler. -/
inductive DownloadResult where
  | httpError (status : Nat) (detail : String)
  | fileOut (data : List Nat) (mime disposition : String) (content_length : Nat)
deriving DecidableEq

/-- Models `main.download_audio` (lines 569-603) as a function of the acquisition
result (`audio_service.get_download_audio`, whose buffered path for MP3 is
`get_audio_stream`): an absent result maps to `HTTPException(404)`, a
present one to an attachment response. -/
def download_audio_route (result : Option (List Nat × String × String))
    (isrc : String) (filename : Option String) : DownloadResult :=
  match result with
  | none => .httpError 404 "Could not fetch audio for download"
  | some (data, ext, mime) =>
    let base := match filename with
      | some f => if f != "" then f else isrc ++ ext
      | none => isrc ++ ext
    let download_name := if endsWithStr base ext then base else base ++ ext
    .fileOut data mime
      ("attachment; filename=\x22" ++ download_name ++ "\x22") data.length

/-- Environment for the C6 counterexample: token, search, URL resolution and
download all succeed (the source is found, with bytes `[1, 2, 3]`), but the
encoder exits with code 1. -/
def c6EnvFault : Env :=
  { decode := fun _ => none,
    responses := fun _ =>
      { timed_out := false, errored := false, status_code := 200,
        content_type := "application/json",
        json := some (.obj [("url", .str "https://cdn.example/found.flac")]) },
    auth :=
      { errored := false, status_code := 200,
        json := some (.obj [("access_token", .str "tok")]) },
    searchResp := fun _ =>
      { errored := false, status_code := 200,
        json := some (.obj [("items",
          .arr [.obj [("isrc", .str "US55"), ("id", .num 5)]])]) },
    download := fun _ =>
      { errored := false, status_code := 200, content_type := "audio/flac",
        content := [1, 2, 3] },
    deezerLookup := fun _ => { errored := true, status_code := 0, json := none },
    deezerDl := fun _ => { errored := true, status_code := 0, json := none },
    encoder := fun _ _ =>
      { not_found := false, other_error := false, returncode := 1,
        output := [], stderr := "conversion failed" },
    proxyUpstream := fun _ _ =>
      { errored := true, status_code := 0, headers := [] } }

/-- C6 counterexample: with `c6EnvFault` the source *is* found
(`fetch_flac` returns bytes), yet the encoder fault is absorbed into an
absent result, and the caller-visible outcome is the same 404 NotFound used
for source-resolution failure (`dummyEnv`, where nothing is found) — not a
distinct 500-class Failed outcome. -/
theorem c6_counterexample :
    (fetch_flac c6EnvFault "US55" ""
      { tidal_token := none, working_api := none }).1 = some [1, 2, 3] ∧
    (get_audio_stream c6EnvFault "US55" ""
      { tidal_token := none, working_api := none } []).1 = none ∧
    (stream_audio c6EnvFault "US55" none true "GET" none
      { tidal_token := none, working_api := none } []).1 = .notFound ∧
    (stream_audio dummyEnv "US55" none true "GET" none
      { tidal_token := none, working_api := none } []).1 = .notFound ∧
    download_audio_route none "US55" none =
      .httpError 404 "Could not fetch audio for download" :=
  ⟨rfl, rfl, rfl, rfl, rfl⟩

theorem transcode_fault_none (run : List Nat → String → EncoderRun)
    (fd : List Nat) (bitrate : String)
    (hfault : (run fd bitrate).not_found = true ∨
      (run fd bitrate).other_error = true ∨ (run fd bitrate).returncode ≠ 0) :
    (transcode_to_mp3 run fd bitrate).1 = none := by
  unfold transcode_to_mp3
  by_cases h1 : (run fd bitrate).not_found = true
  · simp [h1]
  · simp only [Bool.not_eq_true] at h1
    by_cases h2 : (run fd bitrate).other_error = true
    · simp [h1, h2]
    · simp only [Bool.not_eq_true] at h2
      rcases hfault with h | h | h
      · rw [h1] at h; cases h
      · rw [h2] at h; cases h
      · simp [h1, h2, h]

/-- C6 amended: when a source was found (`fetch_flac` yields truthy bytes)
but the transcode step faults (encoder missing, crashed, or non-zero exit),
the service absorbs the fault into an absent result, and the caller surfaces
the same NotFound (404-class) outcome that source-resolution failure
produces — the route maps an absent acquisition to `HTTPException(404)`, and
the stream route's fallback raises the same 404; a 500-class Failed outcome
arises only from exceptions escaping the handler, not from encoder faults. -/
theorem c6_fault_surfaces_notfound (env : Env) (isrc query : String)
    (s : ServiceState) (c : CacheStore) (fd : List Nat)
    (hc : cacheLookup c isrc "mp3" = none)
    (hsource : (fetch_flac env isrc query s).1 = some fd)
    (hfd : fd.isEmpty = false)
    (hfault : (env.encoder fd BITRATE).not_found = true ∨
      (env.encoder fd BITRATE).other_error = true ∨
      (env.encoder fd BITRATE).returncode ≠ 0) :
    (get_audio_stream env isrc query s c).1 = none ∧
    download_audio_route none isrc none =
      .httpError 404 "Could not fetch audio for download" := by
  refine ⟨?_, rfl⟩
  unfold get_audio_stream
  rcases hflac : fetch_flac env isrc query s with ⟨fo, s1⟩
  rw [hflac] at hsource
  simp only at hsource
  subst hsource
  simp [is_cached, hc, hfd, transcode_fault_none env.encoder fd BITRATE hfault]

theorem c6_fault_surfaces_notfound_witness :
    cacheLookup [] "US55" "mp3" = none ∧
    (fetch_flac c6EnvFault "US55" ""
      { tidal_token := none, working_api := none }).1 = some [1, 2, 3] ∧
    (c6EnvFault.encoder [1, 2, 3] BITRATE).returncode ≠ 0 ∧
    (get_audio_stream c6EnvFault "US55" ""
      { tidal_token := none, working_api := none } []).1 = none ∧
    download_audio_route none "US55" none =
      .httpError 404 "Could not fetch audio for download" := by
  have h := c6_fault_surfaces_notfound c6EnvFault "US55" ""
    { tidal_token := none, working_api := none } [] [1, 2, 3]
    rfl rfl rfl (Or.inr (Or.inr (by decide)))
  exact ⟨rfl, rfl, by decide, h.1, h.2⟩

/-! Part: Route `POST /api/download-batch` (`main.download_batch`)

Per-entry acquisition goes through `audio_service.get_download_audio`, which
is not among the sources; following the spec (§4.6 buffered mode, §4.7), it
is abstracted as an oracle `fetch : index → Except Unit (Option (bytes,
ext))` — `.error ()` a raised per-entry exception (caught by the per-entry
handler), `.ok none` an absent acquisition, both omitting the entry. -/

/-- The filesystem-unsafe characters handled by the route's filename
cleaning. -/
def unsafeFilenameChars : List Char :=
  ['/', '\\', ':', '*', '?', '"', '<', '>', '|']

/-- One character of the route's filename cleaning.  The chained Python
`str.replace` calls all have single-character patterns, and no replacement
character (`_`) is itself a later pattern, so the chain is equivalent to
this per-character transform. -/
def sanitizeChar (ch : Char) : Option Char :=
  if ch = '/' ∨ ch = '\\' ∨ ch = ':' then some '_'
  else if ch = '*' ∨ ch = '?' ∨ ch = '"' ∨ ch = '<' ∨ ch = '>' ∨ ch = '|' then
    none
  else some ch

/-- The route's `safe_name` cleaning (line 790 of `main.py`). -/
def sanitize (s : String) : String :=
  ⟨s.data.filterMap sanitizeChar⟩

/-- Models `f"{safe_name} ({count}){ext}"`. -/
def freshCandidate (safe ext : String) (count : Nat) : String :=
  safe ++ " (" ++ toString count ++ ")" ++ ext

/-- The `while filename in used_names` collision loop (lines 794-798),
with explicit fuel: the Python loop always terminates because the
candidates for distinct counts are distinct strings, so at most
`used.length` of them can collide. -/
def freshLoop (safe ext : String) (used : List String) :
    Nat → Nat → String
  | 0, count => freshCandidate safe ext count
  | fuel + 1, count =>
    if used.contains (freshCandidate safe ext count) then
      freshLoop safe ext used fuel (count + 1)
    else freshCandidate safe ext count

/-- Filename choice for one entry: the base `safe_name + ext`, or the first
suffixed candidate not yet used. -/
def chooseFilename (safe ext : String) (used : List String) : String :=
  if used.contains (safe ++ ext) then freshLoop safe ext used (used.length + 1) 1
  else safe ++ ext

/-- The sequential per-entry loop of `main.download_batch` (lines 782-804):
a missing name/artist (IndexError) or a failed acquisition skips the entry;
a successful one is added to the archive under its cleaned, de-duplicated
filename. -/
def batchLoop (fetch : Nat → Except Unit (Option (List Nat × String)))
    (names artists : List String) :
    List Nat → List String → List (String × List Nat)
  | [], _used => []
  | i :: rest, used =>
    match names[i]?, artists[i]? with
    | some name, some artist =>
      match fetch i with
      | .ok (some (data, ext)) =>
        let safe := sanitize (artist ++ " - " ++ name)
        let filename := chooseFilename safe ext used
        (filename, data) :: batchLoop fetch names artists rest (filename :: used)
      | _ => batchLoop fetch names artists rest used
    | _, _ => batchLoop fetch names artists rest used

/-- Models `main.download_batch`: archive entries produced for a request. -/
def download_batch (fetch : Nat → Except Unit (Option (List Nat × String)))
    (tracks names artists : List String) : List (String × List Nat) :=
  batchLoop fetch names artists (List.range tracks.length) []

/-- Specification-side description of which data the archive should contain:
the payloads of exactly the successfully acquired entries, in request
order. -/
def batchSuccesses (fetch : Nat → Except Unit (Option (List Nat × String)))
    (tracks names artists : List String) : List (List Nat) :=
  (List.range tracks.length).filterMap (fun i =>
    match names[i]?, artists[i]? with
    | some _, some _ =>
      match fetch i with
      | .ok (some (data, _ext)) => some data
      | _ => none
    | _, _ => none)

theorem batchLoop_data (fetch : Nat → Except Unit (Option (List Nat × String)))
    (names artists : List String) :
    ∀ (idxs : List Nat) (used : List String),
    (batchLoop fetch names artists idxs used).map Prod.snd =
      idxs.filterMap (fun i =>
        match names[i]?, artists[i]? with
        | some _, some _ =>
          match fetch i with
          | .ok (some (data, _ext)) => some data
          | _ => none
        | _, _ => none) := by
  intro idxs
  induction idxs with
  | nil => intro used; rfl
  | cons i rest ih =>
    intro used
    simp only [batchLoop, List.filterMap_cons]
    cases hn : names[i]? with
    | none => simp [hn, ih used]
    | some name =>
      cases ha : artists[i]? with
      | none => simp [hn, ha, ih used]
      | some artist =>
        cases hf : fetch i with
        | error e => simp [hn, ha, hf, ih used]
        | ok r =>
          cases r with
          | none => simp [hn, ha, hf, ih used]
          | some p =>
            rcases p with ⟨data, ext⟩
            simp [hn, ha, hf, ih]

theorem freshLoop_shape (safe ext : String) (used : List String) :
    ∀ (fuel count : Nat), ∃ k, count ≤ k ∧
      freshLoop safe ext used fuel count = freshCandidate safe ext k := by
  intro fuel
  induction fuel with
  | zero => intro count; exact ⟨count, Nat.le_refl count, rfl⟩
  | succ fuel ih =>
    intro count
    unfold freshLoop
    by_cases hc : used.contains (freshCandidate safe ext count) = true
    · obtain ⟨k, hk, heq⟩ := ih (count + 1)
      exact ⟨k, Nat.le_of_succ_le hk, by rw [if_pos hc]; exact heq⟩
    · exact ⟨count, Nat.le_refl count, by rw [if_neg hc]⟩

/-- C7: (1) the archive contains exactly the payloads of the successfully
acquired entries, in order — a per-entry failure (raised or absent) only
omits that entry, and the loop, being total, never aborts; (2) cleaned
names contain none of the filesystem-unsafe characters; (3) an entry whose
cleaned filename is not yet taken keeps it, and one that collides with an
already-used filename receives a numeric ` (k)` suffix. -/
theorem c7_batch_assembly :
    (∀ (fetch : Nat → Except Unit (Option (List Nat × String)))
      (tracks names artists : List String),
      (download_batch fetch tracks names artists).map Prod.snd =
        batchSuccesses fetch tracks names artists) ∧
    (∀ s : String, ∀ ch ∈ (sanitize s).data, ch ∉ unsafeFilenameChars) ∧
    (∀ (safe ext : String) (used : List String),
      (used.contains (safe ++ ext) = false →
        chooseFilename safe ext used = safe ++ ext) ∧
      (used.contains (safe ++ ext) = true →
        ∃ k, 1 ≤ k ∧
          chooseFilename safe ext used =
            safe ++ " (" ++ toString k ++ ")" ++ ext)) := by
  refine ⟨?_, ?_, ?_⟩
  · intro fetch tracks names artists
    exact batchLoop_data fetch names artists (List.range tracks.length) []
  · intro s ch hch hmem
    simp only [sanitize, List.mem_filterMap] at hch
    obtain ⟨a, _ha, hsan⟩ := hch
    unfold sanitizeChar at hsan
    split_ifs at hsan with h1 h2
    · cases hsan
      exact absurd hmem (by decide)
    · cases hsan
      simp only [unsafeFilenameChars, List.mem_cons, List.not_mem_nil,
        or_false] at hmem
      rcases hmem with rfl | rfl | rfl | rfl | rfl | rfl | rfl | rfl | rfl
        <;> simp_all
  · intro safe ext used
    constructor
    · intro h
      unfold chooseFilename
      rw [h]
      rfl
    · intro h
      unfold chooseFilename
      rw [h]
      simp only [if_true]
      obtain ⟨k, hk, heq⟩ := freshLoop_shape safe ext used (used.length + 1) 1
      exact ⟨k, hk, by rw [heq]; rfl⟩

/-- Per-entry acquisition oracle for the C7 witness: five entries, the third
(index 2) raising during acquisition, the rest succeeding; entries 3 and 4
share a display name. -/
def c7Fetch : Nat → Except Unit (Option (List Nat × String)) := fun i =>
  if i = 2 then .error ()
  else .ok (some ([i + 1], ".mp3"))

theorem c7_batch_assembly_witness :
    (download_batch c7Fetch ["t0", "t1", "t2", "t3", "t4"]
        ["Song A", "Song B", "Song C", "Song D", "Song D"]
        ["Art", "Art", "Art", "Art", "Art"]).map Prod.snd =
      batchSuccesses c7Fetch ["t0", "t1", "t2", "t3", "t4"]
        ["Song A", "Song B", "Song C", "Song D", "Song D"]
        ["Art", "Art", "Art", "Art", "Art"] ∧
    batchSuccesses c7Fetch ["t0", "t1", "t2", "t3", "t4"]
        ["Song A", "Song B", "Song C", "Song D", "Song D"]
        ["Art", "Art", "Art", "Art", "Art"] = [[1], [2], [4], [5]] ∧
    ('A' ∈ (sanitize "AC/DC - Back In Black").data → 'A' ∉ unsafeFilenameChars) ∧
    sanitize "AC/DC - Back In Black" = "AC_DC - Back In Black" ∧
    chooseFilename "Art - Song D" ".mp3" [] = "Art - Song D.mp3" ∧
    (∃ k, 1 ≤ k ∧
      chooseFilename "Art - Song D" ".mp3" ["Art - Song D.mp3"] =
        "Art - Song D" ++ " (" ++ toString k ++ ")" ++ ".mp3") := by
  have h := c7_batch_assembly
  refine ⟨h.1 c7Fetch _ _ _, rfl, fun hmem => h.2.1 _ 'A' hmem, rfl, ?_, ?_⟩
  · exact (h.2.2 "Art - Song D" ".mp3" []).1 rfl
  · exact (h.2.2 "Art - Song D" ".mp3" ["Art - Song D.mp3"]).2 rfl

end Freedify
